import Mathlib

/-!
Shallow embedding of the galerts repository (src/galerts.py, src/galerts2.py):
a client library for Google Alerts.  JSON values are modelled by `JVal`,
Python exceptions by `Except GErr`, and the network boundary by passing the
fetched, JSON-decoded `window.STATE` blob (or the produced request) as an
explicit value.  Module galerts2.py is embedded in namespace `galerts2`,
module galerts.py in namespace `galerts`.
-/

/-- A JSON value, as produced by Python's JSONDecoder on the state blob.
Numbers are integers (all codes in this protocol are small ints). -/
inductive JVal where
  | null
  | num (n : Int)
  | str (s : String)
  | arr (xs : List JVal)

/-- Python `v is None` for a decoded JSON value (only `null` decodes to
Python's `None`). -/
def JVal.isNull : JVal → Bool
  | .null => true
  | _ => false

/-- Python `v == n` between a decoded JSON value and an int constant:
true exactly when the value is that integer. -/
def JVal.eqNum : JVal → Int → Bool
  | .num m, n => m = n
  | _, _ => false

/-- Python `v == s` between a decoded JSON value and a str constant. -/
def JVal.eqStr : JVal → String → Bool
  | .str t, s => t = s
  | _, _ => false

/-- Python exception kinds that the embedded code can raise.
`validation` stands for the ValueError raised on caller-parameter
violations (the spec's ValidationError); the rest mirror Python's
IndexError / TypeError / KeyError / ValueError-on-unpack and the
module's ParseFailureError. -/
inductive GErr where
  | validation
  | indexError
  | typeError
  | keyError
  | valueError
  | parseFailure
deriving DecidableEq

/-- Python `v[i]` on a decoded JSON value: IndexError when the index is out
of range of a list, TypeError when the value is not a list. -/
def JVal.idx? (v : JVal) (i : Nat) : Except GErr JVal :=
  match v with
  | .arr xs =>
    match xs[i]? with
    | some x => .ok x
    | none => .error .indexError
  | _ => .error .typeError

/-- Path lookup into a JSON value (used only to state theorems about
positions inside an encoded payload). -/
def JVal.getPath (v : JVal) : List Nat → Option JVal
  | [] => some v
  | i :: is =>
    match v.idx? i with
    | .ok w => w.getPath is
    | .error _ => none

namespace galerts2

/-- galerts2.AlertParameter: a named parameter and its permissible values,
stored as a map from value to name.  All call sites register distinct
codes, so an insertion-ordered association list with first-match lookup
is extensionally the Python dict. -/
structure AlertParameter where
  values : List (Int × String)
deriving DecidableEq

/-- galerts2.AlertParameter.add: store a map from the value to its name. -/
def AlertParameter.add (p : AlertParameter) (value : Int) (name : String) :
    AlertParameter :=
  ⟨p.values ++ [(value, name)]⟩

/-- galerts2.AlertParameter.getName: the name of a known value, None
(here `none`) for an unknown one. -/
def AlertParameter.getName (p : AlertParameter) (value : Int) : Option String :=
  (p.values.find? (fun q => q.1 = value)).map (fun q => q.2)

/-- The `Sources` registry instance built by the module-level `add` calls. -/
def Sources : AlertParameter :=
  (((((((AlertParameter.mk []).add 0 "Automatic").add 1 "Blogs").add 2
    "News").add 3 "Web").add 5 "Video").add 6 "Books").add 7 "Discussions"

namespace Sources

def Automatic : Int := 0

def Blogs : Int := 1

def News : Int := 2

def Web : Int := 3

def Video : Int := 5

def Books : Int := 6

def Discussions : Int := 7

end Sources

/-- The `Volumes` registry instance. -/
def Volumes : AlertParameter :=
  ((AlertParameter.mk []).add 2 "All results").add 3 "Only the best results"

namespace Volumes

def AllResults : Int := 2

def BestResults : Int := 3

end Volumes

/-- The `DeliveryTypes` registry instance. -/
def DeliveryTypes : AlertParameter :=
  ((AlertParameter.mk []).add 1 "email").add 2 "RSS feed"

namespace DeliveryTypes

def Email : Int := 1

def Feed : Int := 2

end DeliveryTypes

/-- The `Frequencies` registry instance. -/
def Frequencies : AlertParameter :=
  (((AlertParameter.mk []).add 1 "As-it-happens").add 2
    "At most once a day").add 3 "At most once a week"

namespace Frequencies

def AsItHappens : Int := 1

def OnceADay : Int := 2

def OnceAWeek : Int := 3

end Frequencies

def _REGION : String := "US"

def _REGION_DOMAIN : String := "com"

def _GOOGLE_DOMAIN : String := "google." ++ _REGION_DOMAIN

/-- galerts2.Account: account related information in window.STATE.
Fields hold the raw decoded values (Python stores them untyped). -/
structure Account where
  email : JVal
  delivery_data : JVal
  language : JVal
  account_id : JVal

/-- galerts2.Account.__init__: extract the fixed positions 2, 3, 5, 14
of an account record. -/
def Account.init (account_data : JVal) : Except GErr Account := do
  let email ← account_data.idx? 2
  let delivery_data ← account_data.idx? 3
  let language ← account_data.idx? 5
  let account_id ← account_data.idx? 14
  pure ⟨email, delivery_data, language, account_id⟩

/-- galerts2.Alert: the state of one alert decoded from WindowState. -/
structure Alert where
  alert_id : JVal
  account_id : JVal
  query : JVal
  language : JVal
  region : JVal
  sources : JVal
  volume : JVal
  frequency : JVal
  delivery : JVal
  email : JVal
  feed_id : JVal
  feed_url : Option String

/-- galerts2.Alert.__init__: decode one alert record.  The Python code
unpacks `alert_data[3:7]` into four variables (a ValueError if the slice
has fewer than four elements), reads the query/language/region positions,
keeps sources and volume as-is, honours only delivery channel 0, and for
feed delivery synthesizes the feed URL by string concatenation (a
TypeError unless account id and feed id are strings). -/
def Alert.init (alert_state : JVal) : Except GErr Alert := do
  let alert_id ← alert_state.idx? 1
  let account_id ← alert_state.idx? 3
  let alert_data ← alert_state.idx? 2
  match alert_data with
  | .arr (_ :: _ :: _ :: query_info :: source_info :: volume_info ::
      delivery_infos :: _) => do
    let query ← query_info.idx? 1
    let qi3 ← query_info.idx? 3
    let language ← qi3.idx? 1
    let region ← qi3.idx? 2
    let delivery_info ← delivery_infos.idx? 0
    let frequency ← delivery_info.idx? 4
    let delivery ← delivery_info.idx? 1
    let email ← delivery_info.idx? 2
    if delivery.eqNum DeliveryTypes.Feed then
      let feed_id ← delivery_info.idx? 11
      match account_id, feed_id with
      | .str a, .str f =>
        pure ⟨alert_id, .str a, query, language, region, source_info,
          volume_info, frequency, delivery, email, .str f,
          some ("https://www." ++ _GOOGLE_DOMAIN ++ "/alerts/feeds/" ++
            a ++ "/" ++ f)⟩
      | _, _ => .error .typeError
    else
      pure ⟨alert_id, account_id, query, language, region, source_info,
        volume_info, frequency, delivery, email, .null, none⟩
  | .arr _ => .error .valueError
  | _ => .error .typeError

/-- galerts2.WindowState: the decoded window.STATE value — session token
`x`, the alerts, and the accounts dict keyed by email (kept here as an
insertion-ordered association list; Python dict assignment means a later
duplicate email would shadow an earlier one, so lookup takes the last
match). -/
structure WindowState where
  x : JVal
  alerts : List Alert
  accounts : List (JVal × Account)

/-- The `for account_data in accounts_list` loop of
galerts2.WindowState.__init__, building the email-keyed dict. -/
def buildAccounts (accounts_list : List JVal) :
    Except GErr (List (JVal × Account)) := do
  let accs ← accounts_list.mapM Account.init
  pure (accs.map (fun a => (a.email, a)))

/-- galerts2.WindowState.__init__: position 3 is the session token `x`;
position 1 holds the alerts container (null meaning no alerts); position 2
holds the accounts container whose position 6 is the account list. -/
def WindowState.init (window_state : JVal) : Except GErr WindowState := do
  let x ← window_state.idx? 3
  let alerts_data ← window_state.idx? 1
  let alerts ←
    if alerts_data.isNull then
      pure []
    else do
      let alerts_list ← alerts_data.idx? 1
      match alerts_list with
      | .arr l => l.mapM Alert.init
      | _ => .error .typeError
  let accounts_data ← window_state.idx? 2
  let accounts_list ← accounts_data.idx? 6
  let accounts ←
    match accounts_list with
    | .arr l => buildAccounts l
    | _ => .error .typeError
  pure ⟨x, alerts, accounts⟩

/-- Python dict lookup `accounts[email]` with a str key against the
decoded email keys; a missing key is a KeyError.  A later insertion
shadows an earlier one, hence the reversed search. -/
def accountsLookup (accounts : List (JVal × Account)) (email : String) :
    Except GErr Account :=
  match accounts.reverse.find? (fun p => p.1.eqStr email) with
  | some p => .ok p.2
  | none => .error .keyError

/-- The encode-time clock values `datetime.utcnow()` supplies:
`utcnow.hour` and `utcnow.weekday()` (Monday = 0). -/
structure TimeInfo where
  hour : Int
  weekday : Int

/-- Python `Sources.Automatic in sources` on a decoded value: list
membership by equality for a list, a TypeError otherwise (`in` over a
non-iterable; note the JSON protocol never yields a dict here). -/
def jContains (v : JVal) (n : Int) : Except GErr Bool :=
  match v with
  | .arr xs => .ok (xs.any (fun x => x.eqNum n))
  | _ => .error .typeError

/-- galerts2.GoogleAlertsManager (the fields that survive sign-in). -/
structure GoogleAlertsManager where
  email : String
  window_state : WindowState
  account : Account

/-- The opening source check of _create_alert_data: `if sources is not
None: if Sources.Automatic in sources: raise ValueError(...)`. -/
def checkSources (sources : JVal) : Except GErr Unit :=
  if sources.isNull then
    pure ()
  else do
    let c ← jContains sources Sources.Automatic
    if c then .error .validation else pure ()

/-- The region position of the query block:
`region if region is not None else _REGION`. -/
def regionValue (region : JVal) : JVal :=
  if region.isNull then .str _REGION else region

/-- The flag recording whether a region was supplied:
`0 if region is None else 1`. -/
def regionFlag (region : JVal) : Int :=
  if region.isNull then 0 else 1

/-- galerts2.GoogleAlertsManager._create_alert_data: build the positional
payload for a single alert.  Raises ValueError (validation) when a
non-null source list contains Sources.Automatic; includes an hour field
for non-instant frequency and additionally the `(weekday+1) % 7` field
for weekly frequency. -/
def _create_alert_data (account : Account) (tm : TimeInfo) (query : JVal)
    (sources : JVal) (delivery : JVal) (freq : JVal) (vol : JVal)
    (lang : JVal) (region : JVal) : Except GErr JVal := do
  let _ ← checkSources sources
  let delivery_block : JVal :=
    if freq.eqNum Frequencies.AsItHappens then
      .null
    else
      .arr ([.null, .null, .num tm.hour] ++
        (if freq.eqNum Frequencies.OnceAWeek then
          [.num ((tm.weekday + 1) % 7)]
        else []))
  pure (.arr [
    .null, .null, .null,
    .arr [
      .null,
      query,
      .str _REGION_DOMAIN,
      .arr [.null, lang, regionValue region],
      .null, .null, .null,
      .num (regionFlag region),
      .num 1
    ],
    sources,
    vol,
    .arr [
      .arr [
        .null,
        delivery,
        (if delivery.eqNum DeliveryTypes.Email then account.email
         else .str ""),
        delivery_block,
        freq,
        account.language,
        .null, .null, .null, .null, .null,
        .str "0",
        .null, .null,
        account.account_id
      ]
    ]
  ])

/-- An HTTP POST the manager would hand to the transport: the request URL
(holding the session token) and the JSON value serialized into the
`params` form field. -/
structure Request where
  url : String
  params : JVal

/-- Python string concatenation `... + x` with the stored token: a
TypeError unless the token is a string. -/
def asString (v : JVal) : Except GErr String :=
  match v with
  | .str s => .ok s
  | _ => .error .typeError

/-- The create endpoint URL with the session token appended. -/
def createUrl (x : String) : String :=
  "https://www." ++ _GOOGLE_DOMAIN ++ "/alerts/create?x=" ++ x

/-- The modify endpoint URL with the session token appended. -/
def modifyUrl (x : String) : String :=
  "https://www." ++ _GOOGLE_DOMAIN ++ "/alerts/modify?x=" ++ x

/-- The delete endpoint URL with the session token appended. -/
def deleteUrl (x : String) : String :=
  "https://www." ++ _GOOGLE_DOMAIN ++ "/alerts/delete?x=" ++ x

/-- galerts2.GoogleAlertsManager._refresh_window_state, from the decoded
JSON value of the fetched page onward (transport and HTML scraping are
the external collaborator): decode the blob, replace the stored window
state and re-resolve the manager's account. -/
def GoogleAlertsManager.refresh_window_state (m : GoogleAlertsManager)
    (state_value : JVal) : Except GErr GoogleAlertsManager := do
  let ws ← WindowState.init state_value
  let account ← accountsLookup ws.accounts m.email
  pure ⟨m.email, ws, account⟩

/-- galerts2.GoogleAlertsManager.alerts: refresh the window state, then
return a copy of the decoded alert list (with the updated manager). -/
def GoogleAlertsManager.alerts (m : GoogleAlertsManager)
    (state_value : JVal) :
    Except GErr (GoogleAlertsManager × List Alert) := do
  let m' ← m.refresh_window_state state_value
  pure (m', m'.window_state.alerts)

/-- galerts2.GoogleAlertsManager.create: build the create request.  The
URL embeds the currently stored token; feed delivery defaults the
frequency to as-it-happens and rejects any other frequency before the
payload is built; email delivery defaults the frequency to once a day.
No refresh happens inside the call, and the manager is unchanged. -/
def GoogleAlertsManager.create (m : GoogleAlertsManager) (tm : TimeInfo)
    (query : JVal) (sources : JVal) (delivery : JVal) (freq : Option JVal)
    (vol : JVal) (lang : JVal) (region : JVal) :
    Except GErr (GoogleAlertsManager × Request) := do
  let x ← asString m.window_state.x
  let url := createUrl x
  let freq ←
    if delivery.eqNum DeliveryTypes.Feed then
      let f := freq.getD (.num Frequencies.AsItHappens)
      if f.eqNum Frequencies.AsItHappens then
        pure f
      else
        .error .validation
    else
      pure (freq.getD (.num Frequencies.OnceADay))
  let data ← _create_alert_data m.account tm query sources delivery freq
    vol lang region
  pure (m, ⟨url, .arr [.null, data]⟩)

/-- galerts2.GoogleAlertsManager.update: build the modify request from an
existing (possibly edited) alert.  No feed/frequency validation happens
here; no refresh happens inside the call. -/
def GoogleAlertsManager.update (m : GoogleAlertsManager) (tm : TimeInfo)
    (alert : Alert) : Except GErr (GoogleAlertsManager × Request) := do
  let x ← asString m.window_state.x
  let url := modifyUrl x
  let data ← _create_alert_data m.account tm alert.query alert.sources
    alert.delivery alert.frequency alert.volume alert.language alert.region
  pure (m, ⟨url, .arr [.null, alert.alert_id, data]⟩)

/-- galerts2.GoogleAlertsManager.delete: build the delete request.  No
refresh happens inside the call. -/
def GoogleAlertsManager.delete (m : GoogleAlertsManager) (alert : Alert) :
    Except GErr (GoogleAlertsManager × Request) := do
  let x ← asString m.window_state.x
  let url := deleteUrl x
  pure (m, ⟨url, .arr [.null, alert.alert_id]⟩)

end galerts2

namespace galerts

/-- galerts.QUERY_MAXLEN: the maximum length of an alert query. -/
def QUERY_MAXLEN : Nat := 2048

def FREQ_AS_IT_HAPPENS : String := "As-it-happens"

def FREQ_ONCE_A_DAY : String := "Once a day"

def FREQ_ONCE_A_WEEK : String := "Once a week"

/-- galerts.DELIVER_TYPES (dict literal, insertion order). -/
def DELIVER_TYPES : List (String × Int) :=
  [("Email", galerts2.DeliveryTypes.Email),
   ("feed", galerts2.DeliveryTypes.Feed)]

/-- galerts.ALERT_FREQS. -/
def ALERT_FREQS : List (String × Int) :=
  [(FREQ_AS_IT_HAPPENS, galerts2.Frequencies.AsItHappens),
   (FREQ_ONCE_A_DAY, galerts2.Frequencies.OnceADay),
   (FREQ_ONCE_A_WEEK, galerts2.Frequencies.OnceAWeek)]

/-- galerts.ALERT_VOLS. -/
def ALERT_VOLS : List (String × Int) :=
  [("Only the best results", galerts2.Volumes.BestResults),
   ("All results", galerts2.Volumes.AllResults)]

/-- galerts.ALERT_TYPES. -/
def ALERT_TYPES : List (String × Int) :=
  [("Everything", galerts2.Sources.Automatic),
   ("News", galerts2.Sources.News),
   ("Blogs", galerts2.Sources.Blogs),
   ("Realtime", galerts2.Sources.Web),
   ("Video", galerts2.Sources.Video),
   ("Discussions", galerts2.Sources.Discussions),
   ("Books", galerts2.Sources.Books)]

/-- The `{ v: k for (k, v) in d.items() }` reversal used for the four
`*_REV` tables (all four value sets are duplicate-free). -/
def revTable (t : List (String × Int)) : List (Int × String) :=
  t.map (fun p => (p.2, p.1))

def DELIVER_TYPES_REV : List (Int × String) := revTable DELIVER_TYPES

def ALERT_FREQS_REV : List (Int × String) := revTable ALERT_FREQS

def ALERT_VOLS_REV : List (Int × String) := revTable ALERT_VOLS

def ALERT_TYPES_REV : List (Int × String) := revTable ALERT_TYPES

/-- Python dict lookup `d[key]` with a str key (KeyError if missing). -/
def dictGet (t : List (String × Int)) (key : String) : Except GErr Int :=
  match t.find? (fun p => p.1 = key) with
  | some p => .ok p.2
  | none => .error .keyError

/-- Python dict lookup `d[key]` on a `*_REV` table whose keys are ints,
with a decoded JSON value as the key: a hit requires the value to be an
int equal to a key; anything else is a KeyError. -/
def revGet (t : List (Int × String)) (key : JVal) : Except GErr String :=
  match t.find? (fun p => key.eqNum p.1) with
  | some p => .ok p.2
  | none => .error .keyError

/-- galerts.Alert (the facade's caller-facing alert object). -/
structure Alert where
  email : String
  s : JVal
  query : JVal
  type : String
  freq : String
  vol : String
  deliver : String
  feedurl : Option String

/-- galerts.Alert._query_set: the query property setter.  Rejects a value
longer than QUERY_MAXLEN with a ValueError (validation); text is modelled
as already-unicode, so the `unicode(value)` branch cannot fail. -/
def Alert._query_set (value : String) : Except GErr String :=
  if QUERY_MAXLEN < value.length then .error .validation
  else .ok value

/-- The body of the `for new_alert in new_alerts` loop of
galerts.GAlertsManager.alerts: wrap a decoded alert in a facade Alert.
The type is `ALERT_TYPES_REV[new_alert.sources[0]]` when sources is not
None (an IndexError on an empty list — element 0 is read with no bounds
guard) and `ALERT_TYPES_REV[Sources.Automatic]` when it is None. -/
def wrapAlert (email : String) (new_alert : galerts2.Alert) :
    Except GErr Alert := do
  let type ←
    if new_alert.sources.isNull then
      revGet ALERT_TYPES_REV (.num galerts2.Sources.Automatic)
    else do
      let s0 ← new_alert.sources.idx? 0
      revGet ALERT_TYPES_REV s0
  let freq ← revGet ALERT_FREQS_REV new_alert.frequency
  let vol ← revGet ALERT_VOLS_REV new_alert.volume
  let deliver ← revGet DELIVER_TYPES_REV new_alert.delivery
  pure ⟨email, new_alert.alert_id, new_alert.query, type, freq, vol,
    deliver, new_alert.feed_url⟩

/-- galerts.GAlertsManager.alerts: refresh and decode via the galerts2
manager, then wrap every decoded alert (the generator, fully consumed). -/
def GAlertsManager.alerts (m : galerts2.GoogleAlertsManager)
    (state_value : JVal) :
    Except GErr (galerts2.GoogleAlertsManager × List Alert) := do
  let (m', new_alerts) ← m.alerts state_value
  let wrapped ← new_alerts.mapM (wrapAlert m'.email)
  pure (m', wrapped)

/-- galerts.GAlertsManager.create: translate the facade arguments through
the tables and call the galerts2 create (lang and region keep their
defaults).  A feed alert always passes frequency As-it-happens; the
Everything type becomes a null source list.  Note: no query-length check
happens on this path. -/
def GAlertsManager.create (m : galerts2.GoogleAlertsManager)
    (tm : galerts2.TimeInfo) (query : String) (type : String) (feed : Bool)
    (freq : String) (vol : String) :
    Except GErr (galerts2.GoogleAlertsManager × galerts2.Request) := do
  let tcode ← dictGet ALERT_TYPES type
  let sources : JVal :=
    if tcode ≠ galerts2.Sources.Automatic then .arr [.num tcode] else .null
  let delivery : JVal :=
    if feed then .num galerts2.DeliveryTypes.Feed
    else .num galerts2.DeliveryTypes.Email
  let fcode ← dictGet ALERT_FREQS (if feed then FREQ_AS_IT_HAPPENS else freq)
  let vcode ← dictGet ALERT_VOLS vol
  m.create tm (.str query) sources delivery (some (.num fcode))
    (.num vcode) (.str "en") .null

end galerts

/-! Concrete session fixtures used to instantiate the theorems: a signed-in
manager whose stored window state carries token "OLD", and a clock value. -/

def testAccount : galerts2.Account :=
  ⟨.str "u@gmail.com", .null, .str "en", .str "ACC"⟩

def testWindowState : galerts2.WindowState :=
  ⟨.str "OLD", [], [(.str "u@gmail.com", testAccount)]⟩

def testManager : galerts2.GoogleAlertsManager :=
  ⟨"u@gmail.com", testWindowState, testAccount⟩

def testTime : galerts2.TimeInfo := ⟨10, 6⟩

/-- A decoded feed alert whose frequency is OnceADay (as a caller could
stage it by editing a decoded alert before calling update). -/
def alertFeedOnceADay : galerts2.Alert :=
  ⟨.str "AID", .str "ACC", .str "q", .str "en", .str "US", .null,
    .num galerts2.Volumes.BestResults, .num galerts2.Frequencies.OnceADay,
    .num galerts2.DeliveryTypes.Feed, .str "", .str "F", some "u"⟩

/-- A decoded alert whose sources list is present but empty. -/
def alertEmptySources : galerts2.Alert :=
  ⟨.str "AID", .str "ACC", .str "q", .str "en", .str "US", .arr [],
    .num galerts2.Volumes.BestResults, .num galerts2.Frequencies.OnceADay,
    .num galerts2.DeliveryTypes.Email, .str "u@gmail.com", .null, none⟩

/-- A raw alert record with account id "A1" and feed id "F2" on the feed
delivery channel. -/
def rawFeedAlertState : JVal :=
  .arr [.null, .str "AID", .arr [
    .null, .null, .null,
    .arr [.null, .str "q", .str "com", .arr [.null, .str "en", .str "US"],
      .null, .null, .null, .num 0, .num 1],
    .null,
    .num 3,
    .arr [.arr [.null, .num 2, .str "", .null, .num 1, .str "en",
      .null, .null, .null, .null, .null, .str "F2", .null, .null,
      .str "A1"]]],
    .str "A1"]

/-- A raw window.STATE blob with a null alerts container, one account
record for the fixture email, and session token "NEW". -/
def freshBlob : JVal :=
  .arr [.null, .null,
    .arr [.null, .null, .null, .null, .null, .null,
      .arr [.arr [.null, .null, .str "u@gmail.com", .null, .null,
        .str "en", .null, .null, .null, .null, .null, .null, .null,
        .null, .str "ACC"]]],
    .str "NEW"]

/-- The manager state after decoding `freshBlob`. -/
def refreshedManager : galerts2.GoogleAlertsManager :=
  ⟨"u@gmail.com", ⟨.str "NEW", [], [(.str "u@gmail.com", testAccount)]⟩,
    testAccount⟩

/-- A decoded alert whose sources list explicitly contains Automatic. -/
def alertAutoSources : galerts2.Alert :=
  ⟨.str "AID", .str "ACC", .str "q", .str "en", .str "US",
    .arr [.num galerts2.Sources.Automatic],
    .num galerts2.Volumes.BestResults,
    .num galerts2.Frequencies.OnceADay,
    .num galerts2.DeliveryTypes.Email, .str "u@gmail.com", .null, none⟩

/-- An accounts container (window.STATE position 2) with an empty account
list at position 6. -/
def emptyAccountsData : JVal :=
  .arr [.null, .null, .null, .null, .null, .null, .arr []]

/-- A query string of exactly 2048 characters. -/
def q2048 : String := String.mk (List.replicate 2048 'a')

/-- A query string of exactly 2049 characters. -/
def q2049 : String := String.mk (List.replicate 2049 'a')

/-- The alert decoded from `rawFeedAlertState`. -/
def feedAlertDecoded : galerts2.Alert :=
  ⟨.str "AID", .str "A1", .str "q", .str "en", .str "US", .null,
    .num 3, .num 1, .num 2, .str "", .str "F2",
    some "https://www.google.com/alerts/feeds/A1/F2"⟩

/-- The weekday position `[6][0][3][3]` of a weekly-frequency payload:
delivery channel list, channel 0, delivery block, its fourth entry. -/
def weekdayField (acc : galerts2.Account) (tm : galerts2.TimeInfo)
    (query sources delivery vol lang region : JVal) : Option JVal :=
  (galerts2._create_alert_data acc tm query sources delivery
      (.num galerts2.Frequencies.OnceAWeek) vol lang region).toOption.bind
    (fun p => p.getPath [6, 0, 3, 3])

/-! Helper lemmas about the `Except` monad and the source check, shared by
the claim proofs below. -/

theorem exceptBind_ok {α β : Type} (a : α) (f : α → Except GErr β) :
    (Except.ok a >>= f) = f a := rfl

theorem exceptBind_err {α β : Type} (e : GErr) (f : α → Except GErr β) :
    ((Except.error e : Except GErr α) >>= f) = Except.error e := rfl

theorem exceptPure_def {α : Type} (a : α) :
    (pure a : Except GErr α) = Except.ok a := rfl

theorem exceptBind_eq_ok {α β : Type} {x : Except GErr α}
    {f : α → Except GErr β} {b : β} :
    x >>= f = Except.ok b ↔ ∃ a, x = Except.ok a ∧ f a = Except.ok b := by
  cases x <;> simp [exceptBind_ok, exceptBind_err]

theorem checkSources_clean (xs : List JVal)
    (h : xs.any (fun v => v.eqNum galerts2.Sources.Automatic) = false) :
    galerts2.checkSources (.arr xs) = .ok () := by
  simp [galerts2.checkSources, galerts2.jContains, JVal.isNull, h,
    exceptBind_ok, exceptPure_def]

theorem checkSources_auto (xs : List JVal)
    (h : xs.any (fun v => v.eqNum galerts2.Sources.Automatic) = true) :
    galerts2.checkSources (.arr xs) = .error .validation := by
  simp [galerts2.checkSources, galerts2.jContains, JVal.isNull, h,
    exceptBind_ok]

/-- Claim C1 (corrected): the ValidationError for Feed delivery with a
frequency other than AsItHappens is raised — before any request is built
or sent — by the create operation only; the update operation performs no
such validation and successfully builds the request for a feed alert with
a non-instant frequency. -/
theorem c1_feed_frequency_validation_create_only
    (m : galerts2.GoogleAlertsManager) (tm : galerts2.TimeInfo)
    (query sources vol lang region f : JVal) (x : String)
    (al : galerts2.Alert)
    (hx : m.window_state.x = .str x)
    (hf : f.eqNum galerts2.Frequencies.AsItHappens = false)
    (hal : al.delivery = .num galerts2.DeliveryTypes.Feed)
    (haf : al.frequency.eqNum galerts2.Frequencies.AsItHappens = false)
    (hs : al.sources = .null ∨ ∃ xs, al.sources = .arr xs ∧
      xs.any (fun v => v.eqNum galerts2.Sources.Automatic) = false) :
    m.create tm query sources (.num galerts2.DeliveryTypes.Feed) (some f)
      vol lang region = .error .validation ∧
    ∃ r, m.update tm al = .ok r := by
  constructor
  · rw [galerts2.GoogleAlertsManager.create, hx]
    have hd : (JVal.num galerts2.DeliveryTypes.Feed).eqNum
        galerts2.DeliveryTypes.Feed = true := by decide
    simp [galerts2.asString, exceptBind_ok, exceptBind_err, hd, hf]
  · rw [galerts2.GoogleAlertsManager.update, hx]
    have hchk : galerts2.checkSources al.sources = .ok () := by
      rcases hs with h | ⟨xs, h, hany⟩
      · rw [h]; rfl
      · rw [h]; exact checkSources_clean xs hany
    simp [galerts2.asString, galerts2._create_alert_data, hchk,
      exceptBind_ok, exceptBind_err, exceptPure_def]

/-- Claim C1 counterexample: updating a decoded feed alert whose
frequency is OnceADay raises no error at all — the modify request is
built and would be sent. -/
theorem c1_update_feed_daily_no_validation :
    alertFeedOnceADay.delivery = .num galerts2.DeliveryTypes.Feed ∧
    alertFeedOnceADay.frequency = .num galerts2.Frequencies.OnceADay ∧
    (testManager.update testTime alertFeedOnceADay).isOk = true :=
  ⟨rfl, rfl, rfl⟩

/-- Witness for C1 at the fixture session. -/
theorem c1_feed_frequency_validation_create_only_witness :
    testManager.create testTime (.str "q") .null
        (.num galerts2.DeliveryTypes.Feed)
        (some (.num galerts2.Frequencies.OnceADay))
        (.num galerts2.Volumes.BestResults) (.str "en") .null =
      .error .validation ∧
    ∃ r, testManager.update testTime alertFeedOnceADay = .ok r :=
  c1_feed_frequency_validation_create_only testManager testTime (.str "q")
    .null (.num galerts2.Volumes.BestResults) (.str "en") .null
    (.num galerts2.Frequencies.OnceADay) "OLD" alertFeedOnceADay rfl rfl
    rfl rfl (Or.inl rfl)

/-- Claim C2 (corrected): only the alerts listing refreshes the session
state — it replaces the stored window state with the freshly fetched,
decoded one and returns its alerts.  create, update and delete leave the
stored state unchanged and embed the token from the most recent prior
refresh in the request URL. -/
theorem c2_only_list_refreshes_state
    (m m' : galerts2.GoogleAlertsManager) (blob : JVal)
    (as : List galerts2.Alert) (tm : galerts2.TimeInfo)
    (q s dv v l r : JVal) (fo : Option JVal) (al : galerts2.Alert)
    (x : String)
    (hx : m.window_state.x = .str x)
    (hl : m.alerts blob = .ok (m', as)) :
    (galerts2.WindowState.init blob = .ok m'.window_state ∧
      as = m'.window_state.alerts) ∧
    (∀ p, m.create tm q s dv fo v l r = .ok p →
      p.1 = m ∧ p.2.url = galerts2.createUrl x) ∧
    (∀ p, m.update tm al = .ok p →
      p.1 = m ∧ p.2.url = galerts2.modifyUrl x) ∧
    m.delete al = .ok (m, ⟨galerts2.deleteUrl x,
      .arr [.null, al.alert_id]⟩) := by
  refine ⟨?_, ?_, ?_, ?_⟩
  · rw [galerts2.GoogleAlertsManager.alerts,
      galerts2.GoogleAlertsManager.refresh_window_state] at hl
    rw [exceptBind_eq_ok] at hl
    obtain ⟨mm, hmm, hp⟩ := hl
    rw [exceptPure_def] at hp
    injection hp with hp
    injection hp with hp1 hp2
    subst hp1
    rw [exceptBind_eq_ok] at hmm
    obtain ⟨ws, hws, hmm⟩ := hmm
    rw [exceptBind_eq_ok] at hmm
    obtain ⟨acc, hacc, hmm⟩ := hmm
    rw [exceptPure_def] at hmm
    injection hmm with hmm
    subst hmm
    exact ⟨hws, hp2.symm⟩
  · intro p hp
    rw [galerts2.GoogleAlertsManager.create, hx] at hp
    simp only [galerts2.asString, exceptBind_ok] at hp
    split at hp
    · split at hp
      · rw [exceptPure_def, exceptBind_ok, exceptBind_eq_ok] at hp
        obtain ⟨dt, _, hp⟩ := hp
        rw [exceptPure_def] at hp
        injection hp with hp
        subst hp
        exact ⟨rfl, rfl⟩
      · rw [exceptBind_err] at hp
        exact Except.noConfusion hp
    · rw [exceptPure_def, exceptBind_ok, exceptBind_eq_ok] at hp
      obtain ⟨dt, _, hp⟩ := hp
      rw [exceptPure_def] at hp
      injection hp with hp
      subst hp
      exact ⟨rfl, rfl⟩
  · intro p hp
    rw [galerts2.GoogleAlertsManager.update, hx] at hp
    simp only [galerts2.asString, exceptBind_ok] at hp
    rw [exceptBind_eq_ok] at hp
    obtain ⟨dt, _, hp⟩ := hp
    rw [exceptPure_def] at hp
    injection hp with hp
    subst hp
    exact ⟨rfl, rfl⟩
  · rw [galerts2.GoogleAlertsManager.delete, hx]
    rfl

/-- Claim C2 counterexample: with stored token "OLD", create returns the
manager unchanged (no refresh happened inside the call — create receives
no fetched state at all) and the request URL embeds the stored token. -/
theorem c2_create_uses_stored_token :
    testManager.window_state.x = .str "OLD" ∧
    (testManager.create testTime (.str "q") .null
        (.num galerts2.DeliveryTypes.Feed) none
        (.num galerts2.Volumes.BestResults) (.str "en") .null).map
      (fun p => (p.1, p.2.url)) =
      .ok (testManager, "https://www.google.com/alerts/create?x=OLD") :=
  ⟨rfl, rfl⟩

/-- Witness for C2 at the fixture session and blob. -/
theorem c2_only_list_refreshes_state_witness :
    (galerts2.WindowState.init freshBlob =
        .ok refreshedManager.window_state ∧
      ([] : List galerts2.Alert) = refreshedManager.window_state.alerts) ∧
    (∀ p, testManager.create testTime (.str "q") .null
        (.num galerts2.DeliveryTypes.Feed) none
        (.num galerts2.Volumes.BestResults) (.str "en") .null = .ok p →
      p.1 = testManager ∧ p.2.url = galerts2.createUrl "OLD") ∧
    (∀ p, testManager.update testTime alertFeedOnceADay = .ok p →
      p.1 = testManager ∧ p.2.url = galerts2.modifyUrl "OLD") ∧
    testManager.delete alertFeedOnceADay = .ok (testManager,
      ⟨galerts2.deleteUrl "OLD", .arr [.null, alertFeedOnceADay.alert_id]⟩) :=
  c2_only_list_refreshes_state testManager refreshedManager freshBlob []
    testTime (.str "q") .null (.num galerts2.DeliveryTypes.Feed)
    (.num galerts2.Volumes.BestResults) (.str "en") .null none
    alertFeedOnceADay "OLD" rfl rfl

/-- Claim C3 (confirmed): for every valid (sources, delivery, frequency,
volume) tuple with a query, language and supplied region, decoding the
positional structure produced by the encoder yields an Alert whose query,
sources, volume, delivery, frequency, language and region equal the
encoded inputs (server-assigned ids excluded). -/
theorem c3_encode_decode_roundtrip (acc : galerts2.Account)
    (tm : galerts2.TimeInfo)
    (query sources delivery freq vol lang region : JVal) (aid : String)
    (hs : sources = .null ∨ ∃ xs, sources = .arr xs ∧
      xs.any (fun v => v.eqNum galerts2.Sources.Automatic) = false)
    (hd : delivery = .num galerts2.DeliveryTypes.Email ∨
      delivery = .num galerts2.DeliveryTypes.Feed)
    (hf : freq = .num galerts2.Frequencies.AsItHappens ∨
      freq = .num galerts2.Frequencies.OnceADay ∨
      freq = .num galerts2.Frequencies.OnceAWeek)
    (hv : vol = .num galerts2.Volumes.AllResults ∨
      vol = .num galerts2.Volumes.BestResults)
    (hfeed : delivery = .num galerts2.DeliveryTypes.Feed →
      freq = .num galerts2.Frequencies.AsItHappens)
    (hr : region.isNull = false)
    (ha : acc.account_id = .str aid) :
    ∃ al,
      (galerts2._create_alert_data acc tm query sources delivery freq vol
          lang region >>= fun d =>
        galerts2.Alert.init (.arr [.null, .null, d, acc.account_id])) =
        .ok al ∧
      al.query = query ∧ al.sources = sources ∧ al.volume = vol ∧
      al.delivery = delivery ∧ al.frequency = freq ∧ al.language = lang ∧
      al.region = region := by
  rw [ha]
  have hreg : galerts2.regionValue region = region := by
    rw [galerts2.regionValue, hr]
    rfl
  have hchk : galerts2.checkSources sources = .ok () := by
    rcases hs with rfl | ⟨xs, rfl, hany⟩
    · rfl
    · exact checkSources_clean xs hany
  rcases hd with rfl | rfl
  · rcases hf with rfl | rfl | rfl <;> rcases hv with rfl | rfl <;>
      simp only [galerts2._create_alert_data, hchk, hreg, exceptBind_ok,
        exceptPure_def] <;>
      exact ⟨_, rfl, rfl, rfl, rfl, rfl, rfl, rfl, rfl⟩
  · have hfq := hfeed rfl
    subst hfq
    rcases hv with rfl | rfl <;>
      simp only [galerts2._create_alert_data, hchk, hreg, exceptBind_ok,
        exceptPure_def] <;>
      exact ⟨_, rfl, rfl, rfl, rfl, rfl, rfl, rfl, rfl⟩

/-- Witness for C3: an email + once-a-day + best-results round trip. -/
theorem c3_encode_decode_roundtrip_witness :
    ∃ al,
      (galerts2._create_alert_data testAccount testTime (.str "q") .null
          (.num galerts2.DeliveryTypes.Email)
          (.num galerts2.Frequencies.OnceADay)
          (.num galerts2.Volumes.BestResults) (.str "en")
          (.str "US") >>= fun d =>
        galerts2.Alert.init (.arr [.null, .null, d,
          testAccount.account_id])) = .ok al ∧
      al.query = .str "q" ∧ al.sources = .null ∧
      al.volume = .num galerts2.Volumes.BestResults ∧
      al.delivery = .num galerts2.DeliveryTypes.Email ∧
      al.frequency = .num galerts2.Frequencies.OnceADay ∧
      al.language = .str "en" ∧ al.region = .str "US" :=
  c3_encode_decode_roundtrip testAccount testTime (.str "q") .null
    (.num galerts2.DeliveryTypes.Email)
    (.num galerts2.Frequencies.OnceADay)
    (.num galerts2.Volumes.BestResults) (.str "en") (.str "US") "ACC"
    (Or.inl rfl) (Or.inl rfl) (Or.inr (Or.inl rfl)) (Or.inr rfl)
    (fun h => absurd h (by simp [galerts2.DeliveryTypes.Email,
      galerts2.DeliveryTypes.Feed]))
    rfl rfl

/-- Claim C4 (confirmed): a non-null sources list containing the
Automatic code makes both the create path and the update path fail with
the validation error — Automatic is never silently removed. -/
theorem c4_automatic_source_rejected_both_paths
    (m : galerts2.GoogleAlertsManager) (tm : galerts2.TimeInfo)
    (query delivery vol lang region : JVal) (freq : Option JVal)
    (xs : List JVal) (x : String) (al : galerts2.Alert)
    (hx : m.window_state.x = .str x)
    (hmem : xs.any (fun v => v.eqNum galerts2.Sources.Automatic) = true)
    (hal : al.sources = .arr xs) :
    m.create tm query (.arr xs) delivery freq vol lang region =
      .error .validation ∧
    m.update tm al = .error .validation := by
  have hcad : ∀ q d f v l r,
      galerts2._create_alert_data m.account tm q (.arr xs) d f v l r =
        .error .validation := by
    intro q d f v l r
    simp [galerts2._create_alert_data, checkSources_auto xs hmem,
      exceptBind_err]
  constructor
  · rw [galerts2.GoogleAlertsManager.create, hx]
    simp only [galerts2.asString, exceptBind_ok]
    split
    · split
      · simp [hcad, exceptBind_ok, exceptBind_err, exceptPure_def]
      · rfl
    · simp [hcad, exceptBind_ok, exceptBind_err, exceptPure_def]
  · rw [galerts2.GoogleAlertsManager.update, hx, hal]
    simp [galerts2.asString, hcad, exceptBind_ok, exceptBind_err,
      exceptPure_def]

/-- Witness for C4 at the fixture session. -/
theorem c4_automatic_source_rejected_both_paths_witness :
    testManager.create testTime (.str "q")
        (.arr [.num galerts2.Sources.Automatic])
        (.num galerts2.DeliveryTypes.Feed) none
        (.num galerts2.Volumes.BestResults) (.str "en") .null =
      .error .validation ∧
    testManager.update testTime alertAutoSources = .error .validation :=
  c4_automatic_source_rejected_both_paths testManager testTime (.str "q")
    (.num galerts2.DeliveryTypes.Feed)
    (.num galerts2.Volumes.BestResults) (.str "en") .null none
    [.num galerts2.Sources.Automatic] "OLD" alertAutoSources rfl rfl rfl

/-- Claim C5 (corrected): a 2048-character query is accepted and a
2049-character query rejected with the validation error by the Alert
query setter; the facade create operation, however, performs no
query-length validation and accepts a 2049-character query. -/
theorem c5_query_length_check_setter_only (s48 s49 : String)
    (m : galerts2.GoogleAlertsManager) (tm : galerts2.TimeInfo)
    (x : String)
    (h48 : s48.length = 2048) (h49 : s49.length = 2049)
    (hx : m.window_state.x = .str x) :
    galerts.Alert._query_set s48 = .ok s48 ∧
    galerts.Alert._query_set s49 = .error .validation ∧
    (galerts.GAlertsManager.create m tm s49 "News" true
      galerts.FREQ_AS_IT_HAPPENS "All results").isOk = true := by
  refine ⟨?_, ?_, ?_⟩
  · simp [galerts.Alert._query_set, h48, galerts.QUERY_MAXLEN]
  · simp [galerts.Alert._query_set, h49, galerts.QUERY_MAXLEN]
  · have h1 : galerts.dictGet galerts.ALERT_TYPES "News" = .ok 2 := by rfl
    have h2 : galerts.dictGet galerts.ALERT_FREQS
        galerts.FREQ_AS_IT_HAPPENS = .ok 1 := by rfl
    have h3 : galerts.dictGet galerts.ALERT_VOLS "All results" =
        .ok 2 := by rfl
    rw [galerts.GAlertsManager.create]
    simp only [h1, h2, h3, exceptBind_ok, if_true]
    rw [galerts2.GoogleAlertsManager.create, hx]
    simp [galerts2.asString, exceptBind_ok, exceptPure_def,
      galerts2._create_alert_data, galerts2.checkSources,
      galerts2.jContains, JVal.isNull, JVal.eqNum,
      galerts2.Sources.Automatic, galerts2.DeliveryTypes.Feed,
      galerts2.DeliveryTypes.Email, galerts2.Frequencies.AsItHappens,
      Except.isOk, Except.toBool]

set_option maxRecDepth 10000 in
/-- Claim C5 counterexample: the facade create operation accepts a
2049-character query without any validation error. -/
theorem c5_create_accepts_2049 :
    q2049.length = 2049 ∧
    (galerts.GAlertsManager.create testManager testTime q2049 "News" true
      galerts.FREQ_AS_IT_HAPPENS "All results").isOk = true :=
  ⟨rfl, rfl⟩

set_option maxRecDepth 10000 in
/-- Witness for C5 at concrete 2048- and 2049-character queries. -/
theorem c5_query_length_check_setter_only_witness :
    galerts.Alert._query_set q2048 = .ok q2048 ∧
    galerts.Alert._query_set q2049 = .error .validation ∧
    (galerts.GAlertsManager.create testManager testTime q2049 "News" true
      galerts.FREQ_AS_IT_HAPPENS "All results").isOk = true :=
  c5_query_length_check_setter_only q2048 q2049 testManager testTime
    "OLD" rfl rfl rfl

/-- Claim C6 (confirmed): for a weekly-frequency encoding the weekday
field of the delivery block equals (weekday + 1) % 7 in the source's
Monday-origin numbering; in particular Monday (0) encodes to 1 and
Sunday (6) encodes to 0. -/
theorem c6_weekday_encoding (acc : galerts2.Account)
    (tm : galerts2.TimeInfo)
    (query sources delivery vol lang region : JVal)
    (hs : sources = .null ∨ ∃ xs, sources = .arr xs ∧
      xs.any (fun v => v.eqNum galerts2.Sources.Automatic) = false) :
    weekdayField acc tm query sources delivery vol lang region =
      some (.num ((tm.weekday + 1) % 7)) ∧
    (tm.weekday = 0 →
      weekdayField acc tm query sources delivery vol lang region =
        some (.num 1)) ∧
    (tm.weekday = 6 →
      weekdayField acc tm query sources delivery vol lang region =
        some (.num 0)) := by
  have hchk : galerts2.checkSources sources = .ok () := by
    rcases hs with rfl | ⟨xs, rfl, hany⟩
    · rfl
    · exact checkSources_clean xs hany
  have key : weekdayField acc tm query sources delivery vol lang region =
      some (.num ((tm.weekday + 1) % 7)) := by
    simp only [weekdayField, galerts2._create_alert_data, hchk,
      exceptBind_ok]
    rfl
  refine ⟨key, ?_, ?_⟩ <;> intro hw <;> rw [key, hw] <;> norm_num

/-- Witness for C6 at the fixture clock (weekday 6, Sunday). -/
theorem c6_weekday_encoding_witness :
    weekdayField testAccount testTime (.str "q") .null
        (.num galerts2.DeliveryTypes.Email)
        (.num galerts2.Volumes.BestResults) (.str "en") .null =
      some (.num ((testTime.weekday + 1) % 7)) ∧
    (testTime.weekday = 0 →
      weekdayField testAccount testTime (.str "q") .null
          (.num galerts2.DeliveryTypes.Email)
          (.num galerts2.Volumes.BestResults) (.str "en") .null =
        some (.num 1)) ∧
    (testTime.weekday = 6 →
      weekdayField testAccount testTime (.str "q") .null
          (.num galerts2.DeliveryTypes.Email)
          (.num galerts2.Volumes.BestResults) (.str "en") .null =
        some (.num 0)) :=
  c6_weekday_encoding testAccount testTime (.str "q") .null
    (.num galerts2.DeliveryTypes.Email)
    (.num galerts2.Volumes.BestResults) (.str "en") .null (Or.inl rfl)

/-- Claim C7 (confirmed): decoding a window-state blob whose alerts
container (position 1) is null succeeds and yields an empty alert list
rather than an error, for any positions 0/2/3 whose accounts part
decodes. -/
theorem c7_null_alerts_container_empty (v0 accData x : JVal)
    (l : List JVal) (d : List (JVal × galerts2.Account))
    (h6 : accData.idx? 6 = .ok (.arr l))
    (hb : galerts2.buildAccounts l = .ok d) :
    galerts2.WindowState.init (.arr [v0, .null, accData, x]) =
      .ok ⟨x, [], d⟩ := by
  simp only [JVal.idx?] at h6
  simp [galerts2.WindowState.init, JVal.idx?, JVal.isNull, h6, hb,
    exceptBind_ok, exceptPure_def]

/-- Witness for C7 at a blob with no accounts and token "X". -/
theorem c7_null_alerts_container_empty_witness :
    galerts2.WindowState.init (.arr [.null, .null, emptyAccountsData,
      .str "X"]) = .ok ⟨.str "X", [], []⟩ :=
  c7_null_alerts_container_empty .null emptyAccountsData (.str "X") [] []
    rfl rfl

/-- Claim C8 (confirmed): every decoded alert with feed delivery carries
a feed URL equal to the literal feed-endpoint string followed by the
alert's account id, a slash, and the feed id. -/
theorem c8_feed_url_synthesis (st : JVal) (al : galerts2.Alert)
    (h : galerts2.Alert.init st = .ok al)
    (hd : al.delivery.eqNum galerts2.DeliveryTypes.Feed = true) :
    ∃ a f, al.account_id = .str a ∧ al.feed_id = .str f ∧
      al.feed_url = some ("https://www.google.com/alerts/feeds/" ++
        a ++ "/" ++ f) := by
  rw [galerts2.Alert.init] at h
  rw [exceptBind_eq_ok] at h
  obtain ⟨aid, _, h⟩ := h
  rw [exceptBind_eq_ok] at h
  obtain ⟨accid, _, h⟩ := h
  rw [exceptBind_eq_ok] at h
  obtain ⟨ad, _, h⟩ := h
  split at h
  · rw [exceptBind_eq_ok] at h
    obtain ⟨query, _, h⟩ := h
    rw [exceptBind_eq_ok] at h
    obtain ⟨qi3, _, h⟩ := h
    rw [exceptBind_eq_ok] at h
    obtain ⟨language, _, h⟩ := h
    rw [exceptBind_eq_ok] at h
    obtain ⟨region, _, h⟩ := h
    rw [exceptBind_eq_ok] at h
    obtain ⟨dinfo, _, h⟩ := h
    rw [exceptBind_eq_ok] at h
    obtain ⟨frequency, _, h⟩ := h
    rw [exceptBind_eq_ok] at h
    obtain ⟨delivery, _, h⟩ := h
    rw [exceptBind_eq_ok] at h
    obtain ⟨email, _, h⟩ := h
    split at h
    · rw [exceptBind_eq_ok] at h
      obtain ⟨fid, _, h⟩ := h
      split at h
      · rw [exceptPure_def] at h
        injection h with h'
        subst h'
        exact ⟨_, _, rfl, rfl, rfl⟩
      · exact Except.noConfusion h
    · rename_i hcond
      rw [exceptPure_def] at h
      injection h with h'
      subst h'
      exact absurd hd hcond
  · exact Except.noConfusion h
  · exact Except.noConfusion h

/-- Witness for C8: the raw record with account id "A1" and feed id "F2"
decodes to the exact URL the claim names. -/
theorem c8_feed_url_synthesis_witness :
    (∃ a f, feedAlertDecoded.account_id = .str a ∧
      feedAlertDecoded.feed_id = .str f ∧
      feedAlertDecoded.feed_url =
        some ("https://www.google.com/alerts/feeds/" ++ a ++ "/" ++ f)) ∧
    feedAlertDecoded.feed_url =
      some "https://www.google.com/alerts/feeds/A1/F2" :=
  ⟨c8_feed_url_synthesis rawFeedAlertState feedAlertDecoded rfl rfl, rfl⟩

/-- Claim C9 (confirmed): after initialization, reverse lookup returns
the documented name for every documented code of each of the four
registries, and the unknown sentinel (none) for every unregistered code,
without raising. -/
theorem c9_registry_reverse_lookup (v1 v2 v3 v4 : Int)
    (h1 : v1 ∉ ([0, 1, 2, 3, 5, 6, 7] : List Int))
    (h2 : v2 ∉ ([2, 3] : List Int))
    (h3 : v3 ∉ ([1, 2] : List Int))
    (h4 : v4 ∉ ([1, 2, 3] : List Int)) :
    (galerts2.Sources.getName 0 = some "Automatic" ∧
     galerts2.Sources.getName 1 = some "Blogs" ∧
     galerts2.Sources.getName 2 = some "News" ∧
     galerts2.Sources.getName 3 = some "Web" ∧
     galerts2.Sources.getName 5 = some "Video" ∧
     galerts2.Sources.getName 6 = some "Books" ∧
     galerts2.Sources.getName 7 = some "Discussions") ∧
    (galerts2.Volumes.getName 2 = some "All results" ∧
     galerts2.Volumes.getName 3 = some "Only the best results") ∧
    (galerts2.DeliveryTypes.getName 1 = some "email" ∧
     galerts2.DeliveryTypes.getName 2 = some "RSS feed") ∧
    (galerts2.Frequencies.getName 1 = some "As-it-happens" ∧
     galerts2.Frequencies.getName 2 = some "At most once a day" ∧
     galerts2.Frequencies.getName 3 = some "At most once a week") ∧
    galerts2.Sources.getName v1 = none ∧
    galerts2.Volumes.getName v2 = none ∧
    galerts2.DeliveryTypes.getName v3 = none ∧
    galerts2.Frequencies.getName v4 = none := by
  simp only [List.mem_cons, List.not_mem_nil, or_false, not_or]
    at h1 h2 h3 h4
  obtain ⟨n10, n11, n12, n13, n15, n16, n17⟩ := h1
  obtain ⟨n22, n23⟩ := h2
  obtain ⟨n31, n32⟩ := h3
  obtain ⟨n41, n42, n43⟩ := h4
  refine ⟨by decide, by decide, by decide, by decide, ?_, ?_, ?_, ?_⟩ <;>
    simp_all [galerts2.AlertParameter.getName, galerts2.Sources,
      galerts2.Volumes, galerts2.DeliveryTypes, galerts2.Frequencies,
      galerts2.AlertParameter.add, List.find?, Ne.symm]

/-- Witness for C9: code 4 is unknown to Sources and 0 to the others. -/
theorem c9_registry_reverse_lookup_witness :
    (galerts2.Sources.getName 0 = some "Automatic" ∧
     galerts2.Sources.getName 1 = some "Blogs" ∧
     galerts2.Sources.getName 2 = some "News" ∧
     galerts2.Sources.getName 3 = some "Web" ∧
     galerts2.Sources.getName 5 = some "Video" ∧
     galerts2.Sources.getName 6 = some "Books" ∧
     galerts2.Sources.getName 7 = some "Discussions") ∧
    (galerts2.Volumes.getName 2 = some "All results" ∧
     galerts2.Volumes.getName 3 = some "Only the best results") ∧
    (galerts2.DeliveryTypes.getName 1 = some "email" ∧
     galerts2.DeliveryTypes.getName 2 = some "RSS feed") ∧
    (galerts2.Frequencies.getName 1 = some "As-it-happens" ∧
     galerts2.Frequencies.getName 2 = some "At most once a day" ∧
     galerts2.Frequencies.getName 3 = some "At most once a week") ∧
    galerts2.Sources.getName 4 = none ∧
    galerts2.Volumes.getName 0 = none ∧
    galerts2.DeliveryTypes.getName 0 = none ∧
    galerts2.Frequencies.getName 0 = none :=
  c9_registry_reverse_lookup 4 0 0 0 (by decide) (by decide) (by decide)
    (by decide)

/-- Claim C10 (confirmed): the facade's alert wrapping reads only element
0 of a non-null sources list, with no bounds guard: a non-null but empty
sources list makes the wrapping (and hence the listing) fail with an
IndexError instead of mapping to Automatic or any other type, and for a
non-empty list the result depends only on the head. -/
theorem c10_sources_head_only_translation (em : String)
    (na : galerts2.Alert) (xs : List JVal)
    (h : na.sources = .arr xs) :
    (xs = [] → galerts.wrapAlert em na = .error .indexError ∧
      ([na].mapM (galerts.wrapAlert em) =
        (.error .indexError : Except GErr (List galerts.Alert)))) ∧
    (∀ v rest, xs = v :: rest →
      galerts.wrapAlert em na =
        galerts.wrapAlert em { na with sources := .arr [v] }) := by
  constructor
  · rintro rfl
    have hw : galerts.wrapAlert em na = .error .indexError := by
      rw [galerts.wrapAlert, h]
      simp [JVal.isNull, JVal.idx?, exceptBind_err, exceptBind_ok]
    refine ⟨hw, ?_⟩
    simp [List.mapM, List.mapM.loop, hw, exceptBind_err]
  · rintro v rest rfl
    rw [galerts.wrapAlert, galerts.wrapAlert]
    simp [h, JVal.isNull, JVal.idx?, exceptBind_ok]

/-- Witness for C10 at the empty-sources fixture alert. -/
theorem c10_sources_head_only_translation_witness :
    (([] : List JVal) = [] →
      galerts.wrapAlert "u@gmail.com" alertEmptySources =
        .error .indexError ∧
      ([alertEmptySources].mapM (galerts.wrapAlert "u@gmail.com") =
        (.error .indexError : Except GErr (List galerts.Alert)))) ∧
    (∀ v rest, ([] : List JVal) = v :: rest →
      galerts.wrapAlert "u@gmail.com" alertEmptySources =
        galerts.wrapAlert "u@gmail.com"
          { alertEmptySources with sources := .arr [v] }) :=
  c10_sources_head_only_translation "u@gmail.com" alertEmptySources []
    rfl
